import Mathlib

/-!
Shallow embedding of the pCloud sync-target adapter: the resilient API client
(`PCloudApi.exec` retry loop) and the filesystem driver (`FileApiDriverPCloud`).
Network interactions are modelled by an oracle: a list of provider responses
consumed one per request, together with a trace of the requests issued.
-/

namespace PCloudSpec

/-! ## The client retry loop (`PCloudApi.exec`) -/

/-- Error codes the retry loop classifies (`error.code` of the parsed error body). -/
inductive ErrCode where
  | invalidAuthenticationToken
  | unauthenticated
  | generalException
  | eagain
  | resourceModified
  | activityLimitReached
  | itemNotFound
  | otherCode (s : String)
  deriving Repr, DecidableEq

/-- What the network yields on one attempt of the loop: a transport-level error
(retryable or not, per `shim.fetchRequestCanBeRetried`), a response with
`response.ok`, or a non-ok HTTP response whose error body either fails to parse
(`parseOk = false`) or parses to an error code, with the optional
`retry-after` header value. -/
inductive AttemptOutcome where
  | transportError (retryable : Bool)
  | okResponse (id : Nat)
  | errorResponse (parseOk : Bool) (code : ErrCode) (retryAfter : Option String)
  deriving Repr, DecidableEq

/-- Outcome of the whole loop. `stuck` is a model artifact (the outcome list ran
out before the loop finished); `headerCrash` models the JS TypeError raised by
indexing `_headers['retry-after'][0]` when the header is absent. -/
inductive ExecResult where
  | success (id : Nat)
  | noResponse
  | fatalTransport
  | fatalApi (code : ErrCode)
  | headerCrash
  | exhausted (msg : String)
  | stuck
  deriving Repr, DecidableEq

/-- The message of the failure raised when all attempts are consumed. -/
def exhaustedMessage (method url : String) : String :=
  "Could not execute request after multiple attempts: " ++ method ++ " " ++ url

/-- Accumulator pass of `parseRetryAfter`. -/
def natOfDigits : List Char → Nat → Option Nat
  | [], acc => some acc
  | c :: rest, acc =>
    if c.isDigit then natOfDigits rest (acc * 10 + (c.toNat - 48)) else none

/-- `Number(header)` together with the `!isNaN(...)` guard: `some n` exactly
when the header text is a (non-empty) decimal numeral. -/
def parseRetryAfter (s : String) : Option Nat :=
  match s.data with
  | [] => none
  | l => natOfDigits l 0

/-- The retry loop of `PCloudApi.exec` (`for (let i = 0; i < 5; i++)`), with the
sequence of sleeps (in seconds) it performs. Ordinary retryable failures sleep
`(i + 1) * 5`; a rate-limit response with numeric `retry-after` sleeps that many
seconds and decrements `i` before the loop increment (so `i` is unchanged);
`itemNotFound` under the DELETE verb returns without a response; everything else
unclassified is fatal. -/
def execLoop (method url : String) : Nat → List AttemptOutcome → ExecResult × List Nat
  | i, [] =>
    if 5 ≤ i then (.exhausted (exhaustedMessage method url), []) else (.stuck, [])
  | i, o :: rest =>
    if 5 ≤ i then (.exhausted (exhaustedMessage method url), [])
    else
      match o with
      | .okResponse id => (.success id, [])
      | .transportError retryable =>
        if retryable then
          let r := execLoop method url (i + 1) rest
          (r.1, (i + 1) * 5 :: r.2)
        else (.fatalTransport, [])
      | .errorResponse parseOk code retryAfter =>
        if parseOk = false then
          let r := execLoop method url (i + 1) rest
          (r.1, (i + 1) * 5 :: r.2)
        else
          match code with
          | .invalidAuthenticationToken => execLoop method url (i + 1) rest
          | .unauthenticated => execLoop method url (i + 1) rest
          | .generalException =>
            let r := execLoop method url (i + 1) rest
            (r.1, (i + 1) * 5 :: r.2)
          | .eagain =>
            let r := execLoop method url (i + 1) rest
            (r.1, (i + 1) * 5 :: r.2)
          | .resourceModified =>
            let r := execLoop method url (i + 1) rest
            (r.1, (i + 1) * 5 :: r.2)
          | .activityLimitReached =>
            match retryAfter with
            | none => (.headerCrash, [])
            | some s =>
              match parseRetryAfter s with
              | some n =>
                let r := execLoop method url i rest
                (r.1, n :: r.2)
              | none => (.fatalApi .activityLimitReached, [])
          | .itemNotFound =>
            if method = "DELETE" then (.noResponse, [])
            else (.fatalApi .itemNotFound, [])
          | .otherCode s => (.fatalApi (.otherCode s), [])

/-- An outcome the loop treats as an ordinary retryable failure (sleep
`(i + 1) * 5` then consume one attempt): a retryable transport error, an
unparseable error body, or one of the `generalException`/`EAGAIN`/
`resourceModified` codes. -/
def isOrdinaryRetryable : AttemptOutcome → Bool
  | .transportError retryable => retryable
  | .errorResponse parseOk code _ =>
    !parseOk || (code == .generalException || code == .eagain || code == .resourceModified)
  | .okResponse _ => false

/-! ## The driver (`FileApiDriverPCloud`)

The driver issues provider calls through `PCloudApi.exec`; here each such call
consumes the next entry of a response oracle and is recorded in a trace, so the
theorems can speak about which calls were issued and in what order. -/

/-- `PCloudResponseCodes` from `PCloudApi`. -/
def PCloudResponseCodes.Ok : Nat := 0

/-- `PCloudResponseCodes.FileNotFound = 2002`. -/
def PCloudResponseCodes.FileNotFound : Nat := 2002

/-- `PCloudResponseCodes.ParentNotFound = 2005`. -/
def PCloudResponseCodes.ParentNotFound : Nat := 2005

/-- `PcloudFileMetadata`: the provider-native description of a file or folder.
`contents` is the child list carried by `listfolder` responses (a nested
inductive, since children are metadata records themselves). -/
inductive PcloudFileMetadata where
  | mk (name : String) (created : String) (modified : String)
       (isfolder : Bool) (isdeleted : Bool) (folderid : Int)
       (contents : List PcloudFileMetadata)
  deriving Repr

def PcloudFileMetadata.name : PcloudFileMetadata → String
  | .mk n _ _ _ _ _ _ => n

def PcloudFileMetadata.created : PcloudFileMetadata → String
  | .mk _ c _ _ _ _ _ => c

def PcloudFileMetadata.modified : PcloudFileMetadata → String
  | .mk _ _ m _ _ _ _ => m

def PcloudFileMetadata.isfolder : PcloudFileMetadata → Bool
  | .mk _ _ _ f _ _ _ => f

def PcloudFileMetadata.isdeleted : PcloudFileMetadata → Bool
  | .mk _ _ _ _ d _ _ => d

def PcloudFileMetadata.folderid : PcloudFileMetadata → Int
  | .mk _ _ _ _ _ fid _ => fid

def PcloudFileMetadata.contents : PcloudFileMetadata → List PcloudFileMetadata
  | .mk _ _ _ _ _ _ c => c

/-- One provider response as seen by the driver: the HTTP-level `ok` flag, the
JSON body's numeric `result` code, `error` text, optional `metadata`, and the
`fd` of file-descriptor responses. -/
structure ProviderResponse where
  ok : Bool := true
  result : Nat := 0
  error : String := ""
  metadata : Option PcloudFileMetadata := none
  fd : Nat := 0
  deriving Repr

/-- The query-string parameters the driver passes to `exec` (only the fields it
ever sets). -/
structure Query where
  path : Option String := none
  recursive : Option Nat := none
  folderid : Option Int := none
  name : Option String := none
  flags : Option Nat := none
  fd : Option Nat := none
  filename : Option String := none
  deriving Repr, DecidableEq

/-- One call issued through `PCloudApi.exec`: HTTP method, pCloud command,
query parameters and request body. -/
structure ApiCall where
  method : String
  command : String
  query : Query
  data : Option String := none
  deriving Repr

/-- Oracle/trace state threaded through every driver operation. -/
structure St where
  oracle : List ProviderResponse
  trace : List ApiCall
  deriving Repr

/-- How a driver operation can fail: an explicit `throw Error(...)`, a JS
`TypeError` from dereferencing `null`/`undefined` (e.g. `null.folderid`),
or a model artifact (oracle exhausted / recursion fuel exhausted). -/
inductive JsError where
  | thrown (msg : String)
  | nullDeref
  | oracleExhausted
  | outOfFuel
  deriving Repr, DecidableEq

/-- `this.api_.exec(...)` as seen from the driver: consume the next oracle
response and record the call. -/
def apiExec (method command : String) (q : Query) (data : Option String) (st : St) :
    Except JsError (ProviderResponse × St) :=
  match st.oracle with
  | [] => .error .oracleExhausted
  | r :: rest => .ok (r, ⟨rest, st.trace ++ [⟨method, command, q, data⟩]⟩)

/-- `makePath`: coerce a path to begin with `/` (`path.startsWith('/')`,
expressed as a first-character test so it evaluates in the kernel). -/
def makePath (p : String) : String :=
  if p.data.head? = some '/' then p else "/" ++ p

/-- Split a character list at every `/` (kernel-evaluable counterpart of
`split('/')`; never returns the empty list). -/
def splitOnSlash : List Char → List (List Char)
  | [] => [[]]
  | c :: rest =>
    match splitOnSlash rest with
    | [] => [[]]
    | h :: t => if c = '/' then [] :: h :: t else (c :: h) :: t

/-- Rejoin `/`-separated components. -/
def joinSlash : List (List Char) → List Char
  | [] => []
  | [l] => l
  | l :: ls => l ++ '/' :: joinSlash ls

/-- Modelled from the spec: the repository's path helpers (`path-utils`) are not
among the sources; per the spec a path is a `/`-separated sequence of
components and `dirname` strips the final component ("walking upward from the
immediate parent"). -/
def dirname (p : String) : String :=
  ⟨joinSlash ((splitOnSlash p.data).dropLast)⟩

/-- Modelled from the spec: `basename` is the path's final `/`-separated
component. -/
def basename (p : String) : String :=
  ⟨(splitOnSlash p.data).getLastD []⟩

/-- A JS runtime value of a timestamp field: the code stores either a number or
a string there (the TypeScript annotation notwithstanding). -/
inductive JsVal where
  | num (n : Int)
  | str (s : String)
  deriving Repr, DecidableEq

/-- `PcloudFileStat`, the driver-facing record. -/
structure PcloudFileStat where
  path : String
  isDir : Bool
  isDeleted : Option Bool := none
  created_time : Option JsVal := none
  updated_time : Option JsVal := none
  deriving Repr, DecidableEq

/-- `makeItem`: translate provider metadata to a `PcloudFileStat`. `parseDate`
stands for `moment(s, PCLOUD_DATE_FORMAT)` as Unix milliseconds; `format('x')`
is its decimal rendering, so `created_time` receives the *string*
`toString (parseDate ...)` (the source applies no `Number(...)` there) while
`updated_time` receives the number. -/
def makeItem (parseDate : String → Int) (odItem : PcloudFileMetadata) : PcloudFileStat :=
  if odItem.isdeleted then
    { path := odItem.name, isDir := odItem.isfolder, isDeleted := some true }
  else
    { path := odItem.name, isDir := odItem.isfolder,
      created_time := some (.str (toString (parseDate odItem.created))),
      updated_time := some (.num (parseDate odItem.modified)) }

/-- `makeItems`: the element-wise loop over a metadata list. -/
def makeItems (parseDate : String → Int) (odItems : List PcloudFileMetadata) :
    List PcloudFileStat :=
  odItems.map (makeItem parseDate)

/-- `rootFolderMetadata`: a shallow (`recursive: 0`) `listfolder` of `/`,
returning the response's `metadata` with no result-code check. -/
def rootFolderMetadata (st : St) : Except JsError (Option PcloudFileMetadata × St) :=
  match apiExec "GET" "listfolder" { path := some "/", recursive := some 0 } none st with
  | .error e => .error e
  | .ok (r, st) => .ok (r.metadata, st)

/-- `statRaw`: the empty path goes to `rootFolderMetadata`; otherwise a direct
`stat` query; `FileNotFound` yields `null`, any other non-OK code throws. -/
def statRaw (p : String) (st : St) : Except JsError (Option PcloudFileMetadata × St) :=
  if p = "" then rootFolderMetadata st
  else
    match apiExec "GET" "stat" { path := some (makePath p) } none st with
    | .error e => .error e
    | .ok (r, st) =>
      if r.result ≠ PCloudResponseCodes.Ok then
        if r.result = PCloudResponseCodes.FileNotFound then .ok (none, st)
        else .error (.thrown r.error)
      else .ok (r.metadata, st)

/-- `stat`: `statRaw` then `makeItem`; a missing item yields `null`. -/
def stat (parseDate : String → Int) (p : String) (st : St) :
    Except JsError (Option PcloudFileStat × St) :=
  match statRaw p st with
  | .error e => .error e
  | .ok (none, st) => .ok (none, st)
  | .ok (some item, st) => .ok (some (makeItem parseDate item), st)

/-- The record `list` returns. -/
structure PcloudListResult where
  hasMore : Bool
  items : List PcloudFileStat
  deriving Repr, DecidableEq

/-- `list`: one recursive (`recursive: 1`) `listfolder`; `FileNotFound` yields
an empty item list; otherwise the children of `result.metadata.contents` are
translated (dereferencing absent metadata is a TypeError). `hasMore` is the
literal `false`. -/
def list (parseDate : String → Int) (p : String) (st : St) :
    Except JsError (PcloudListResult × St) :=
  match apiExec "GET" "listfolder" { path := some (makePath p), recursive := some 1 } none st with
  | .error e => .error e
  | .ok (r, st) =>
    if r.result = PCloudResponseCodes.FileNotFound then
      .ok ({ hasMore := false, items := [] }, st)
    else
      match r.metadata with
      | none => .error .nullDeref
      | some m => .ok ({ hasMore := false, items := makeItems parseDate m.contents }, st)

/-- `fileExists`: a shallow `listfolder`; only `Ok` and `ParentNotFound` are
tolerated, and existence means exactly `Ok`. -/
def fileExists (p : String) (st : St) : Except JsError (Bool × St) :=
  match apiExec "GET" "listfolder" { path := some (makePath p), recursive := some 0 } none st with
  | .error e => .error e
  | .ok (r, st) =>
    if r.result ≠ PCloudResponseCodes.Ok ∧ r.result ≠ PCloudResponseCodes.ParentNotFound then
      .error (.thrown ("Cannot check directory for existence: " ++ r.error))
    else .ok (r.result == PCloudResponseCodes.Ok, st)

/-- `execCreateDir`: one `createfolderifnotexists` call scoped to
`parentFolderId`; non-OK throws; returns the response metadata. -/
def execCreateDir (nm : String) (parentFolderId : Int) (st : St) :
    Except JsError (Option PcloudFileMetadata × St) :=
  match apiExec "GET" "createfolderifnotexists"
      { folderid := some parentFolderId, name := some nm } none st with
  | .error e => .error e
  | .ok (r, st) =>
    if r.result ≠ PCloudResponseCodes.Ok then
      .error (.thrown ("Could not create directory: " ++ nm ++ ", parent: " ++
        toString parentFolderId ++ ". Cause: " ++ toString r.result ++ " - " ++ r.error))
    else .ok (r.metadata, st)

/-- `createDirRecursively`: walk upward until an existing ancestor (or the
root), then create each missing level against its own parent's folder
identifier. `fuel` bounds the recursion depth (the source recurses on the
shrinking `dirname`). -/
def createDirRecursively (fuel : Nat) (directoryPath : String) (st : St) :
    Except JsError (Option PcloudFileMetadata × St) :=
  match fuel with
  | 0 => .error .outOfFuel
  | fuel + 1 =>
    if directoryPath = "" ∨ directoryPath = "/" then statRaw directoryPath st
    else
      match fileExists (dirname directoryPath) st with
      | .error e => .error e
      | .ok (ex, st) =>
        match (if ex then statRaw (dirname directoryPath) st
               else createDirRecursively fuel (dirname directoryPath) st) with
        | .error e => .error e
        | .ok (none, _) => .error .nullDeref
        | .ok (some baseDirStat, st) =>
          execCreateDir (basename directoryPath) baseDirStat.folderid st

/-- `mkdir`: return the existing stat if the path exists; otherwise look up the
parent's metadata and create scoped to its folder identifier. The source passes
`parentPath` — not the path's final component — as the new folder's name, and
dereferences the parent lookup's result unconditionally. -/
def mkdir (parseDate : String → Int) (p : String) (st : St) :
    Except JsError (PcloudFileStat × St) :=
  match stat parseDate p st with
  | .error e => .error e
  | .ok (some item, st) => .ok (item, st)
  | .ok (none, st) =>
    match statRaw (dirname p) st with
    | .error e => .error e
    | .ok (none, _) => .error .nullDeref
    | .ok (some parentPathMetadata, st) =>
      match execCreateDir (dirname p) parentPathMetadata.folderid st with
      | .error e => .error e
      | .ok (none, _) => .error .nullDeref
      | .ok (some newItem, st) => .ok (makeItem parseDate newItem, st)

/-- `putFile` (the `options.source === 'file'` branch of `put`): ensure the
parent chain exists, then a provider-native `uploadfile`. -/
def putFile (fuel : Nat) (path : String) (st : St) :
    Except JsError (ProviderResponse × St) :=
  match fileExists (dirname path) st with
  | .error e => .error e
  | .ok (ex, st) =>
    match (if ex then .ok (none, st) else createDirRecursively fuel (dirname path) st :
        Except JsError (Option PcloudFileMetadata × St)) with
    | .error e => .error e
    | .ok (_, st) =>
      apiExec "PUT" "uploadfile"
        { path := some ("/" ++ dirname path), filename := some (basename path) } none st

/-- `put`: the in-memory branch opens a write-mode descriptor
(`flags: 0x0040`); on `FileNotFound` ("parent directory does not exist") it
creates the missing ancestors and retries the whole `put` from the top;
any other non-OK open is fatal; otherwise it issues `file_write`. `fuel`
bounds the self-recursion. -/
def put (fuel : Nat) (path0 : String) (content : Option String)
    (source : Option String) (st : St) : Except JsError (ProviderResponse × St) :=
  match fuel with
  | 0 => .error .outOfFuel
  | fuel + 1 =>
    let path := makePath path0
    if source = some "file" then putFile fuel path st
    else
      match apiExec "GET" "file_open" { flags := some 64, path := some path } none st with
      | .error e => .error e
      | .ok (response, st) =>
        if response.ok = false then
          .error (.thrown ("Error creating file descriptor " ++ path ++ " " ++ response.error))
        else if response.result ≠ PCloudResponseCodes.Ok then
          if response.result = PCloudResponseCodes.FileNotFound then
            match createDirRecursively fuel (dirname path) st with
            | .error e => .error e
            | .ok (_, st) => put fuel path content source st
          else
            .error (.thrown ("Error creating file descriptor " ++ path ++
              ".PCloud error code: " ++ toString response.result ++ ". Cause " ++ response.error))
        else
          apiExec "PUT" "file_write" { fd := some response.fd } content st

/-- `delete`: one `deletefile` call (note: HTTP verb `GET`, not `DELETE`);
any non-OK result code throws. -/
def delete (p : String) (st : St) : Except JsError (Option PcloudFileMetadata × St) :=
  match apiExec "GET" "deletefile" { path := some (makePath p) } none st with
  | .error e => .error e
  | .ok (r, st) =>
    if r.result ≠ PCloudResponseCodes.Ok then
      .error (.thrown ("Could not delete file: " ++ makePath p ++ ". Cause: " ++ r.error))
    else .ok (r.metadata, st)

/-- The sleep sequence of a run of consecutive ordinary retryable failures
starting at attempt index `i`. -/
def backoffSleeps (i : Nat) : Nat → List Nat
  | 0 => []
  | k + 1 => (i + 1) * 5 :: backoffSleeps (i + 1) k

/-- The single provider call `statRaw p` issues: a shallow `listfolder` of `/`
for the empty (root) path, a direct `stat` query otherwise. -/
def statQueryCall (p : String) : ApiCall :=
  if p = "" then ⟨"GET", "listfolder", { path := some "/", recursive := some 0 }, none⟩
  else ⟨"GET", "stat", { path := some (makePath p) }, none⟩

/-- The `fileExists` probe call for path `p`. -/
def probeCall (p : String) : ApiCall :=
  ⟨"GET", "listfolder", { path := some (makePath p), recursive := some 0 }, none⟩

/-- The `execCreateDir` call creating `nm` inside the folder `fid`. -/
def createCall (fid : Int) (nm : String) : ApiCall :=
  ⟨"GET", "createfolderifnotexists", { folderid := some fid, name := some nm }, none⟩

/-- The write-mode `file_open` call `put` issues for (already normalized) `p`. -/
def fileOpenCall (p : String) : ApiCall :=
  ⟨"GET", "file_open", { flags := some 64, path := some p }, none⟩

/-- The `file_write` call `put` issues on descriptor `fd`. -/
def fileWriteCall (fd : Nat) (content : Option String) : ApiCall :=
  ⟨"PUT", "file_write", { fd := some fd }, content⟩

/-- Oracle responses consumed by `createDirRecursively` on a chain of missing
directories (deepest first, paired with the metadata their creation returns),
whose topmost missing level has the existing parent answered by `eResp`: each
level's parent probe answers `ParentNotFound` except the last, whose parent
exists; then the existing parent's metadata; then one OK creation response per
level, consumed in ascending order. -/
def cdrOracle (eResp : ProviderResponse) :
    List (String × PcloudFileMetadata) → List ProviderResponse
  | [] => []
  | (_, m) :: rest =>
    (match rest with
     | [] => [{ result := 0 }, eResp]
     | _ :: _ => [{ result := 2005 }])
    ++ cdrOracle eResp rest ++ [{ result := 0, metadata := some m }]

/-- The calls `createDirRecursively` issues on such a chain: existence probes
walking upward, the existing ancestor's metadata fetch, then one creation per
missing level, each scoped to its own parent's folder identifier. -/
def cdrTrace (e : String) (eFid : Int) :
    List (String × PcloudFileMetadata) → List ApiCall
  | [] => []
  | (d, _) :: rest =>
    match rest with
    | [] => [probeCall e, statQueryCall e, createCall eFid (basename d)]
    | (d2, m2) :: _ =>
      probeCall d2 :: cdrTrace e eFid rest ++ [createCall m2.folderid (basename d)]

/-- Well-formedness of a missing-directory chain (deepest first): no element is
the root, each element's `dirname` is the next element, and the last element's
`dirname` is the existing ancestor `e`. -/
def chainOkB (e : String) : List (String × PcloudFileMetadata) → Bool
  | [] => true
  | (d, _) :: rest =>
    (!(d == "") && !(d == "/")) &&
    (match rest with
     | [] => dirname d == e
     | (d2, _) :: _ => dirname d == d2) &&
    chainOkB e rest

/-- The creation calls of `cdrTrace`, in issue order (ascending): one per
missing level, scoped to its own parent's folder identifier. -/
def chainCreations (eFid : Int) : List (String × PcloudFileMetadata) → List ApiCall
  | [] => []
  | (d, _) :: rest =>
    match rest with
    | [] => [createCall eFid (basename d)]
    | (_, m2) :: _ => chainCreations eFid rest ++ [createCall m2.folderid (basename d)]

/-! ## Theorems -/

/-- `makePath` is idempotent. -/
theorem makePath_idem (p : String) : makePath (makePath p) = makePath p := by
  by_cases h : p.data.head? = some '/'
  · simp [makePath, h]
  · simp only [makePath, h, if_false]
    have hh : ("/" ++ p).data.head? = some '/' := by
      simp [String.data_append]
    simp [hh]

/-- Single-step unfolding of `fileExists` on a non-empty oracle. -/
theorem fileExists_cons (p : String) (r : ProviderResponse) (rest : List ProviderResponse)
    (tr : List ApiCall) :
    fileExists p ⟨r :: rest, tr⟩
      = (if r.result ≠ PCloudResponseCodes.Ok ∧ r.result ≠ PCloudResponseCodes.ParentNotFound
         then .error (.thrown ("Cannot check directory for existence: " ++ r.error))
         else .ok (r.result == PCloudResponseCodes.Ok, ⟨rest, tr ++ [probeCall p]⟩)) := rfl

/-- Single-step unfolding of `execCreateDir` on a non-empty oracle. -/
theorem execCreateDir_cons (nm : String) (fid : Int) (r : ProviderResponse)
    (rest : List ProviderResponse) (tr : List ApiCall) :
    execCreateDir nm fid ⟨r :: rest, tr⟩
      = (if r.result ≠ PCloudResponseCodes.Ok
         then .error (.thrown ("Could not create directory: " ++ nm ++ ", parent: " ++
            toString fid ++ ". Cause: " ++ toString r.result ++ " - " ++ r.error))
         else .ok (r.metadata, ⟨rest, tr ++ [createCall fid nm]⟩)) := rfl

/-- On a well-formed missing chain answered by `cdrOracle`,
`createDirRecursively` succeeds with the deepest directory's metadata, consumes
exactly the chain's oracle, and issues exactly the calls of `cdrTrace`. -/
theorem createDirRecursively_chain (e : String) (eResp : ProviderResponse)
    (me : PcloudFileMetadata) (chain : List (String × PcloudFileMetadata))
    (d : String) (m : PcloudFileMetadata)
    (extra : List ProviderResponse) (tr : List ApiCall) (fuel : Nat)
    (heR : eResp.result = 0) (heM : eResp.metadata = some me)
    (hchain : chainOkB e ((d, m) :: chain) = true)
    (hfuel : chain.length < fuel) :
    createDirRecursively fuel d ⟨cdrOracle eResp ((d, m) :: chain) ++ extra, tr⟩
      = .ok (some m, ⟨extra, tr ++ cdrTrace e me.folderid ((d, m) :: chain)⟩) := by
  induction chain generalizing d m tr fuel extra with
  | nil =>
    obtain ⟨F, rfl⟩ : ∃ F, fuel = F + 1 := ⟨fuel - 1, by omega⟩
    simp [chainOkB] at hchain
    obtain ⟨⟨hd1, hd2⟩, hde⟩ := hchain
    simp only [createDirRecursively]
    rw [if_neg (by simp [hd1, hd2])]
    rw [hde]
    by_cases he : e = ""
    · subst he
      simp [cdrOracle, cdrTrace, fileExists, statRaw, rootFolderMetadata, execCreateDir,
        apiExec, probeCall, statQueryCall, createCall, heM,
        PCloudResponseCodes.Ok, PCloudResponseCodes.ParentNotFound]
    · simp [cdrOracle, cdrTrace, fileExists, statRaw, execCreateDir,
        apiExec, probeCall, statQueryCall, createCall, he, heR, heM,
        PCloudResponseCodes.Ok, PCloudResponseCodes.ParentNotFound]
  | cons dm2 rest ih =>
    obtain ⟨d2, m2⟩ := dm2
    obtain ⟨F, rfl⟩ : ∃ F, fuel = F + 1 := ⟨fuel - 1, by omega⟩
    rw [show chainOkB e ((d, m) :: (d2, m2) :: rest)
        = ((!(d == "") && !(d == "/")) && (dirname d == d2) && chainOkB e ((d2, m2) :: rest))
      from rfl] at hchain
    simp only [Bool.and_eq_true, Bool.not_eq_true', beq_eq_false_iff_ne, ne_eq,
      beq_iff_eq] at hchain
    obtain ⟨⟨⟨hd1, hd2⟩, hC⟩, hD⟩ := hchain
    simp only [createDirRecursively]
    rw [if_neg (by simp [hd1, hd2])]
    rw [hC]
    rw [show cdrOracle eResp ((d, m) :: (d2, m2) :: rest)
        = { result := 2005 } :: (cdrOracle eResp ((d2, m2) :: rest) ++
            [{ result := 0, metadata := some m }]) from rfl]
    simp only [List.cons_append, List.append_assoc, List.singleton_append, List.nil_append]
    rw [fileExists_cons]
    rw [if_neg (by simp [PCloudResponseCodes.Ok, PCloudResponseCodes.ParentNotFound])]
    rw [show ((2005 : Nat) == PCloudResponseCodes.Ok) = false from rfl]
    simp only [Bool.false_eq_true, if_false]
    rw [ih d2 m2 ({ result := 0, metadata := some m } :: extra) (tr ++ [probeCall d2]) F hD
        (by simp at hfuel ⊢; omega)]
    rw [show cdrTrace e me.folderid ((d, m) :: (d2, m2) :: rest)
        = probeCall d2 :: cdrTrace e me.folderid ((d2, m2) :: rest) ++
            [createCall m2.folderid (basename d)] from rfl]
    simp only []
    rw [execCreateDir_cons]
    rw [if_neg (by simp [PCloudResponseCodes.Ok])]
    simp [List.append_assoc]

/-- The creation calls of a chain's trace are exactly `chainCreations`. -/
theorem cdrTrace_filter_create (e : String) (eFid : Int)
    (chain : List (String × PcloudFileMetadata)) :
    (cdrTrace e eFid chain).filter (fun c => c.command == "createfolderifnotexists")
      = chainCreations eFid chain := by
  induction chain with
  | nil => rfl
  | cons dm rest ih =>
    obtain ⟨d, m⟩ := dm
    cases rest with
    | nil =>
      by_cases he : e = "" <;>
        simp [cdrTrace, chainCreations, probeCall, statQueryCall, createCall, he, List.filter]
    | cons dm2 t =>
      obtain ⟨d2, m2⟩ := dm2
      rw [show cdrTrace e eFid ((d, m) :: (d2, m2) :: t)
          = probeCall d2 :: cdrTrace e eFid ((d2, m2) :: t) ++
              [createCall m2.folderid (basename d)] from rfl]
      rw [show chainCreations eFid ((d, m) :: (d2, m2) :: t)
          = chainCreations eFid ((d2, m2) :: t) ++
              [createCall m2.folderid (basename d)] from rfl]
      simp only [List.filter_cons, List.filter_append, ih]
      simp [probeCall, createCall]

/-- A chain's trace contains no `file_open` call. -/
theorem cdrTrace_filter_open (e : String) (eFid : Int)
    (chain : List (String × PcloudFileMetadata)) :
    (cdrTrace e eFid chain).filter (fun c => c.command == "file_open") = [] := by
  induction chain with
  | nil => rfl
  | cons dm rest ih =>
    obtain ⟨d, m⟩ := dm
    cases rest with
    | nil =>
      by_cases he : e = "" <;>
        simp [cdrTrace, probeCall, statQueryCall, createCall, he, List.filter]
    | cons dm2 t =>
      obtain ⟨d2, m2⟩ := dm2
      rw [show cdrTrace e eFid ((d, m) :: (d2, m2) :: t)
          = probeCall d2 :: cdrTrace e eFid ((d2, m2) :: t) ++
              [createCall m2.folderid (basename d)] from rfl]
      simp only [List.filter_cons, List.filter_append, ih]
      simp [probeCall, createCall]

/-- One creation call per missing level. -/
theorem chainCreations_length (eFid : Int) (chain : List (String × PcloudFileMetadata)) :
    (chainCreations eFid chain).length = chain.length := by
  induction chain with
  | nil => rfl
  | cons dm rest ih =>
    obtain ⟨d, m⟩ := dm
    cases rest with
    | nil => rfl
    | cons dm2 t =>
      obtain ⟨d2, m2⟩ := dm2
      rw [show chainCreations eFid ((d, m) :: (d2, m2) :: t)
          = chainCreations eFid ((d2, m2) :: t) ++
              [createCall m2.folderid (basename d)] from rfl]
      simp only [List.length_append, List.length_cons, ih]
      simp

/-- Single-step unfolding of the in-memory branch of `put` on a non-empty
oracle. -/
theorem put_step (F : Nat) (path0 : String) (content : Option String)
    (r : ProviderResponse) (rest : List ProviderResponse) (tr : List ApiCall) :
    put (F + 1) path0 content none ⟨r :: rest, tr⟩
      = (if r.ok = false then
           .error (.thrown ("Error creating file descriptor " ++ makePath path0 ++ " " ++ r.error))
         else if r.result ≠ PCloudResponseCodes.Ok then
           if r.result = PCloudResponseCodes.FileNotFound then
             match createDirRecursively F (dirname (makePath path0))
                 ⟨rest, tr ++ [fileOpenCall (makePath path0)]⟩ with
             | .error e => .error e
             | .ok (_, st) => put F (makePath path0) content none st
           else .error (.thrown ("Error creating file descriptor " ++ makePath path0 ++
              ".PCloud error code: " ++ toString r.result ++ ". Cause " ++ r.error))
         else
           apiExec "PUT" "file_write" { fd := some r.fd } content
             ⟨rest, tr ++ [fileOpenCall (makePath path0)]⟩) := rfl

/-- C3: an in-memory `put` whose `file_open` reports `FileNotFound` over a
missing ancestor chain of depth `k = chain.length + 1` succeeds with the
`file_write` response, issuing exactly `k` `createfolderifnotexists` calls —
one per missing level, each scoped to its own parent's folder identifier — and
exactly two `file_open` calls for the same path, i.e. exactly one retry of the
whole `put` from the top. -/
theorem put_creates_missing_ancestors_once
    (p : String) (content : Option String) (e : String) (eResp wResp : ProviderResponse)
    (me : PcloudFileMetadata) (chain : List (String × PcloudFileMetadata))
    (d : String) (m : PcloudFileMetadata) (fdv : Nat) (fuel : Nat)
    (heR : eResp.result = 0) (heM : eResp.metadata = some me)
    (hchain : chainOkB e ((d, m) :: chain) = true)
    (hd : d = dirname (makePath p))
    (hfuel : chain.length + 1 < fuel) :
    put fuel p content none
        ⟨{ result := 2002 } :: (cdrOracle eResp ((d, m) :: chain) ++
            [{ result := 0, fd := fdv }, wResp]), []⟩
      = .ok (wResp,
          ⟨[], fileOpenCall (makePath p) :: (cdrTrace e me.folderid ((d, m) :: chain) ++
              [fileOpenCall (makePath p), fileWriteCall fdv content])⟩)
    ∧ (fileOpenCall (makePath p) :: (cdrTrace e me.folderid ((d, m) :: chain) ++
          [fileOpenCall (makePath p), fileWriteCall fdv content])).filter
        (fun c => c.command == "createfolderifnotexists")
        = chainCreations me.folderid ((d, m) :: chain)
    ∧ (chainCreations me.folderid ((d, m) :: chain)).length = chain.length + 1
    ∧ (fileOpenCall (makePath p) :: (cdrTrace e me.folderid ((d, m) :: chain) ++
          [fileOpenCall (makePath p), fileWriteCall fdv content])).filter
        (fun c => c.command == "file_open")
        = [fileOpenCall (makePath p), fileOpenCall (makePath p)] := by
  obtain ⟨F, rfl⟩ : ∃ F, fuel = F + 1 := ⟨fuel - 1, by omega⟩
  obtain ⟨F2, rfl⟩ : ∃ F2, F = F2 + 1 := ⟨F - 1, by omega⟩
  refine ⟨?_, ?_, ?_, ?_⟩
  · rw [put_step]
    rw [if_neg (by simp)]
    rw [if_pos (by simp [PCloudResponseCodes.Ok])]
    rw [if_pos (by simp [PCloudResponseCodes.FileNotFound])]
    rw [← hd]
    rw [List.nil_append]
    rw [createDirRecursively_chain e eResp me chain d m
        [{ result := 0, fd := fdv }, wResp] [fileOpenCall (makePath p)] (F2 + 1)
        heR heM hchain (by omega)]
    simp only []
    rw [put_step]
    rw [makePath_idem]
    rw [if_neg (by simp)]
    rw [if_neg (by simp [PCloudResponseCodes.Ok])]
    simp [apiExec, fileWriteCall, List.append_assoc]
  · simp only [List.filter_cons, List.filter_append, cdrTrace_filter_create]
    simp [fileOpenCall, fileWriteCall]
  · rw [chainCreations_length]
    simp
  · simp only [List.filter_cons, List.filter_append, cdrTrace_filter_open]
    simp [fileOpenCall, fileWriteCall]

/-- C3 witness: uploading to `a/b/c.txt` with both `/a` and `/a/b` missing
(depth 2, root existing with folder id 0): the put succeeds with the write
response after exactly two creations — `a` under folder 0, then `b` under
folder 7 — and exactly two `file_open` calls. -/
theorem put_creates_missing_ancestors_once_witness :
    (chainOkB ""
        [("/a/b", PcloudFileMetadata.mk "b" "" "" true false 9 []),
         ("/a", PcloudFileMetadata.mk "a" "" "" true false 7 [])] = true
      ∧ ("/a/b" : String) = dirname (makePath "a/b/c.txt")
      ∧ (1 : Nat) + 1 < 3) ∧
    put 3 "a/b/c.txt" (some "hello") none
        ⟨{ result := 2002 } ::
          (cdrOracle { result := 0, metadata := some (.mk "/" "" "" true false 0 []) }
              [("/a/b", .mk "b" "" "" true false 9 []), ("/a", .mk "a" "" "" true false 7 [])] ++
            [{ result := 0, fd := 42 }, { result := 0 }]), []⟩
      = .ok ({ result := 0 },
          ⟨[], fileOpenCall (makePath "a/b/c.txt") ::
              (cdrTrace "" 0
                  [("/a/b", .mk "b" "" "" true false 9 []),
                   ("/a", .mk "a" "" "" true false 7 [])] ++
                [fileOpenCall (makePath "a/b/c.txt"), fileWriteCall 42 (some "hello")])⟩)
    ∧ (fileOpenCall (makePath "a/b/c.txt") ::
          (cdrTrace "" 0
              [("/a/b", .mk "b" "" "" true false 9 []), ("/a", .mk "a" "" "" true false 7 [])] ++
            [fileOpenCall (makePath "a/b/c.txt"), fileWriteCall 42 (some "hello")])).filter
        (fun c => c.command == "createfolderifnotexists")
        = chainCreations 0
            [("/a/b", .mk "b" "" "" true false 9 []), ("/a", .mk "a" "" "" true false 7 [])]
    ∧ (chainCreations 0
          [("/a/b", .mk "b" "" "" true false 9 []),
           ("/a", .mk "a" "" "" true false 7 [])]).length = 1 + 1
    ∧ (fileOpenCall (makePath "a/b/c.txt") ::
          (cdrTrace "" 0
              [("/a/b", .mk "b" "" "" true false 9 []), ("/a", .mk "a" "" "" true false 7 [])] ++
            [fileOpenCall (makePath "a/b/c.txt"), fileWriteCall 42 (some "hello")])).filter
        (fun c => c.command == "file_open")
        = [fileOpenCall (makePath "a/b/c.txt"), fileOpenCall (makePath "a/b/c.txt")] :=
  ⟨⟨by decide, by decide, by decide⟩,
    put_creates_missing_ancestors_once "a/b/c.txt" (some "hello") ""
      { result := 0, metadata := some (.mk "/" "" "" true false 0 []) } { result := 0 }
      (.mk "/" "" "" true false 0 [])
      [("/a", .mk "a" "" "" true false 7 [])]
      "/a/b" (.mk "b" "" "" true false 9 []) 42 3
      rfl rfl (by decide) (by decide) (by decide)⟩

/-- One ordinary retryable failure at attempt index `i < 5` sleeps
`(i + 1) * 5` seconds and consumes one attempt. -/
theorem execLoop_ordinary_step (method url : String) (i : Nat) (o : AttemptOutcome)
    (rest : List AttemptOutcome) (hi : i < 5) (ho : isOrdinaryRetryable o = true) :
    execLoop method url i (o :: rest)
      = ((execLoop method url (i + 1) rest).1,
         (i + 1) * 5 :: (execLoop method url (i + 1) rest).2) := by
  match o with
  | .transportError retryable =>
    simp [isOrdinaryRetryable] at ho
    simp [execLoop, Nat.not_le.mpr hi, ho]
  | .okResponse id => simp [isOrdinaryRetryable] at ho
  | .errorResponse parseOk code ra =>
    cases parseOk with
    | false => simp [execLoop, Nat.not_le.mpr hi]
    | true =>
      cases code <;> simp [isOrdinaryRetryable] at ho <;>
        simp [execLoop, Nat.not_le.mpr hi]

/-- A run of ordinary retryable failures filling the remaining budget ends in
the exhaustion failure, with the linear backoff sleep sequence. -/
theorem execLoop_all_retryable (method url : String) (outs : List AttemptOutcome) (i : Nat)
    (hlen : i + outs.length = 5) (hall : ∀ o ∈ outs, isOrdinaryRetryable o = true) :
    execLoop method url i outs
      = (.exhausted (exhaustedMessage method url), backoffSleeps i outs.length) := by
  induction outs generalizing i with
  | nil =>
    simp at hlen
    simp [execLoop, hlen, backoffSleeps]
  | cons o rest ih =>
    have hi : i < 5 := by simp at hlen; omega
    rw [execLoop_ordinary_step method url i o rest hi (hall o (by simp))]
    rw [ih (i + 1) (by simp at hlen ⊢; omega) (fun o ho => hall o (by simp [ho]))]
    simp [backoffSleeps]

/-- C1: a rate-limited response (`activityLimitReached` with a numeric
`retry-after` of `n` seconds) makes the loop sleep exactly `n` seconds without
consuming an attempt, so any run of rate-limited responses — in particular 5 of
them — followed by a success still yields that success, with the sleep sequence
being exactly the advertised values. -/
theorem execLoop_rateLimit_preserves_budget
    (method url : String) (id : Nat) (hdrs : List String) (ns : List Nat)
    (h : hdrs.map parseRetryAfter = ns.map some) :
    execLoop method url 0
        (hdrs.map (fun s => .errorResponse true .activityLimitReached (some s)) ++ [.okResponse id])
      = (.success id, ns) := by
  induction hdrs generalizing ns with
  | nil =>
    simp at h
    subst h
    simp [execLoop]
  | cons s hs ih =>
    match ns with
    | [] => simp at h
    | n :: ns' =>
      simp at h
      obtain ⟨hn, hrest⟩ := h
      rw [List.map_cons, List.cons_append]
      simp only [execLoop]
      rw [hn]
      simp [ih ns' (by simpa using hrest)]

/-- C1 witness: five rate-limited responses with retry-after 7, 11, 13, 17, 19
seconds, then a success: the call succeeds and sleeps exactly those values. -/
theorem execLoop_rateLimit_preserves_budget_witness :
    (["7", "11", "13", "17", "19"].map parseRetryAfter
        = ([7, 11, 13, 17, 19] : List Nat).map some) ∧
    execLoop "GET" "https://api.pcloud.com/listfolder?" 0
        (["7", "11", "13", "17", "19"].map
            (fun s => .errorResponse true .activityLimitReached (some s)) ++ [.okResponse 1])
      = (.success 1, [7, 11, 13, 17, 19]) :=
  ⟨by decide,
    execLoop_rateLimit_preserves_budget "GET" "https://api.pcloud.com/listfolder?" 1
      ["7", "11", "13", "17", "19"] [7, 11, 13, 17, 19] (by decide)⟩

/-- C2: an ordinary retryable failure at 0-indexed attempt `i` is followed by a
sleep of exactly `(i + 1) * 5` seconds, and 5 consecutive ordinary retryable
failures (none reclassified as rate-limited) end in the generic exhaustion
failure naming the HTTP method and URL, with sleeps 5, 10, 15, 20, 25. -/
theorem execLoop_linear_backoff_and_exhaustion :
    (∀ (method url : String) (i : Nat) (o : AttemptOutcome) (rest : List AttemptOutcome),
        i < 5 → isOrdinaryRetryable o = true →
        execLoop method url i (o :: rest)
          = ((execLoop method url (i + 1) rest).1,
             (i + 1) * 5 :: (execLoop method url (i + 1) rest).2))
    ∧ (∀ (method url : String) (outs : List AttemptOutcome),
        outs.length = 5 → (∀ o ∈ outs, isOrdinaryRetryable o = true) →
        execLoop method url 0 outs
          = (.exhausted (exhaustedMessage method url), [5, 10, 15, 20, 25])) := by
  refine ⟨execLoop_ordinary_step, fun method url outs hlen hall => ?_⟩
  rw [execLoop_all_retryable method url outs 0 (by omega) hall, hlen]
  rfl

/-- C2 witness: 5 `generalException` failures on a GET: exhaustion failure with
sleeps 5, 10, 15, 20, 25. -/
theorem execLoop_linear_backoff_and_exhaustion_witness :
    (0 : Nat) < 5 ∧
    isOrdinaryRetryable (.errorResponse true .generalException none) = true ∧
    (List.replicate 5 (AttemptOutcome.errorResponse true .generalException none)).length = 5 ∧
    execLoop "GET" "https://api.pcloud.com/stat?" 0
        (List.replicate 5 (.errorResponse true .generalException none))
      = (.exhausted (exhaustedMessage "GET" "https://api.pcloud.com/stat?"),
         [5, 10, 15, 20, 25]) :=
  ⟨by decide, by decide, by decide,
    execLoop_linear_backoff_and_exhaustion.2 "GET" "https://api.pcloud.com/stat?" _ (by decide)
      (by intro o ho; have h := List.eq_of_mem_replicate ho; subst h; decide)⟩

/-- C7: an `itemNotFound` error under the DELETE verb makes the client's
execute loop return without a response (idempotent delete), while the driver's
`delete` issues its provider call with the non-DELETE verb `GET` and raises on
any non-OK result code. -/
theorem delete_idempotent_client_vs_driver :
    (∀ (url : String) (i : Nat) (ra : Option String) (rest : List AttemptOutcome),
        i < 5 →
        execLoop "DELETE" url i (.errorResponse true .itemNotFound ra :: rest)
          = (.noResponse, []))
    ∧ (∀ (p : String) (r : ProviderResponse), r.result ≠ PCloudResponseCodes.Ok →
        delete p ⟨[r], []⟩
          = .error (.thrown ("Could not delete file: " ++ makePath p ++ ". Cause: " ++ r.error)))
    ∧ (∀ (p : String) (r : ProviderResponse), r.result = PCloudResponseCodes.Ok →
        delete p ⟨[r], []⟩
          = .ok (r.metadata, ⟨[], [⟨"GET", "deletefile", { path := some (makePath p) }, none⟩]⟩)) := by
  refine ⟨fun url i ra rest hi => ?_, fun p r hr => ?_, fun p r hr => ?_⟩
  · simp [execLoop, Nat.not_le.mpr hi]
  · simp [delete, apiExec, hr]
  · simp [delete, apiExec, hr, PCloudResponseCodes.Ok]

/-- C7 witness: at the client layer, `itemNotFound` under DELETE is a no-op
success; at the driver layer, `delete` of a missing item (non-OK code 2009)
raises, and its issued call carries the verb `GET`. -/
theorem delete_idempotent_client_vs_driver_witness :
    ((0 : Nat) < 5 ∧
      execLoop "DELETE" "https://api.pcloud.com/deletefile?" 0
          [.errorResponse true .itemNotFound none] = (.noResponse, [])) ∧
    ((2009 : Nat) ≠ PCloudResponseCodes.Ok ∧
      delete "x.md" ⟨[{ result := 2009, error := "file not found" }], []⟩
        = .error (.thrown ("Could not delete file: " ++ makePath "x.md" ++
            ". Cause: " ++ "file not found"))) ∧
    ((0 : Nat) = PCloudResponseCodes.Ok ∧
      delete "x.md" ⟨[{ result := 0 }], []⟩
        = .ok (none, ⟨[], [⟨"GET", "deletefile", { path := some (makePath "x.md") }, none⟩]⟩)) :=
  ⟨⟨by decide,
     delete_idempotent_client_vs_driver.1 "https://api.pcloud.com/deletefile?" 0 none []
       (by decide)⟩,
   ⟨by decide,
     delete_idempotent_client_vs_driver.2.1 "x.md"
       { result := 2009, error := "file not found" } (by decide)⟩,
   ⟨by decide,
     delete_idempotent_client_vs_driver.2.2 "x.md" { result := 0 } (by decide)⟩⟩

/-- C4 counterexample: for the empty/root path the provider's non-OK,
non-`FileNotFound` result code 5000 does *not* make `stat` raise — the root
metadata fetch ignores the result code, so `stat` returns `null`. This refutes
the claim's "any other non-OK provider result code makes stat raise" at `p = ""`. -/
theorem stat_root_swallows_other_errors :
    ((5000 : Nat) ≠ PCloudResponseCodes.Ok ∧ (5000 : Nat) ≠ PCloudResponseCodes.FileNotFound) ∧
    stat (fun _ => 0) "" ⟨[{ result := 5000, error := "Internal error." }], []⟩
      = .ok (none,
          ⟨[], [⟨"GET", "listfolder", { path := some "/", recursive := some 0 }, none⟩]⟩) :=
  ⟨by decide, rfl⟩

/-- C4 (amended): for every *non-empty* path, `stat` returns `null` iff the
provider reports `FileNotFound` (OK responses carrying metadata), and any other
non-OK code raises; the empty/root path is instead resolved via a dedicated
shallow, non-recursive listing of `/`, which never raises and yields the
translated metadata when present. -/
theorem stat_null_iff_notFound_amended :
    (∀ (pd : String → Int) (p : String) (r : ProviderResponse), p ≠ "" →
        r.result = PCloudResponseCodes.FileNotFound →
        stat pd p ⟨[r], []⟩ = .ok (none, ⟨[], [statQueryCall p]⟩))
    ∧ (∀ (pd : String → Int) (p : String) (r : ProviderResponse), p ≠ "" →
        r.result ≠ PCloudResponseCodes.Ok → r.result ≠ PCloudResponseCodes.FileNotFound →
        stat pd p ⟨[r], []⟩ = .error (.thrown r.error))
    ∧ (∀ (pd : String → Int) (p : String) (r : ProviderResponse) (m : PcloudFileMetadata),
        p ≠ "" → r.result = PCloudResponseCodes.Ok → r.metadata = some m →
        stat pd p ⟨[r], []⟩ = .ok (some (makeItem pd m), ⟨[], [statQueryCall p]⟩))
    ∧ (∀ (pd : String → Int) (r : ProviderResponse),
        stat pd "" ⟨[r], []⟩
          = .ok (r.metadata.map (makeItem pd), ⟨[], [statQueryCall ""]⟩)) := by
  refine ⟨fun pd p r hp hr => ?_, fun pd p r hp hr hr2 => ?_, fun pd p r m hp hr hm => ?_,
          fun pd r => ?_⟩
  · simp [stat, statRaw, apiExec, hp, hr, statQueryCall,
      PCloudResponseCodes.Ok, PCloudResponseCodes.FileNotFound]
  · simp [stat, statRaw, apiExec, hp, hr, hr2, statQueryCall]
  · simp [stat, statRaw, apiExec, hp, hr, hm, statQueryCall, PCloudResponseCodes.Ok]
  · cases hm : r.metadata <;>
      simp [stat, statRaw, rootFolderMetadata, apiExec, statQueryCall, hm]

/-- C4 witness: concrete instances of the amended claim — not-found yields
null, code 2009 raises, an OK response yields the translated stat. -/
theorem stat_null_iff_notFound_amended_witness :
    (("x.md" : String) ≠ "" ∧ (2002 : Nat) = PCloudResponseCodes.FileNotFound ∧
      stat (fun _ => 0) "x.md" ⟨[{ result := 2002 }], []⟩
        = .ok (none, ⟨[], [statQueryCall "x.md"]⟩)) ∧
    (("x.md" : String) ≠ "" ∧ (2009 : Nat) ≠ PCloudResponseCodes.Ok ∧
      (2009 : Nat) ≠ PCloudResponseCodes.FileNotFound ∧
      stat (fun _ => 0) "x.md" ⟨[{ result := 2009, error := "boom" }], []⟩
        = .error (.thrown "boom")) ∧
    (("x.md" : String) ≠ "" ∧ (0 : Nat) = PCloudResponseCodes.Ok ∧
      stat (fun _ => 0) "x.md"
          ⟨[{ result := 0, metadata := some (.mk "x.md" "" "" false false 3 []) }], []⟩
        = .ok (some (makeItem (fun _ => 0) (.mk "x.md" "" "" false false 3 [])),
               ⟨[], [statQueryCall "x.md"]⟩)) :=
  ⟨⟨by decide, by decide,
     stat_null_iff_notFound_amended.1 (fun _ => 0) "x.md" { result := 2002 }
       (by decide) (by decide)⟩,
   ⟨by decide, by decide, by decide,
     stat_null_iff_notFound_amended.2.1 (fun _ => 0) "x.md" { result := 2009, error := "boom" }
       (by decide) (by decide) (by decide)⟩,
   ⟨by decide, by decide,
     stat_null_iff_notFound_amended.2.2.1 (fun _ => 0) "x.md"
       { result := 0, metadata := some (.mk "x.md" "" "" false false 3 []) }
       (.mk "x.md" "" "" false false 3 []) (by decide) (by decide) rfl⟩⟩

/-- C5: `mkdir` on an existing path returns the translated existing stat after
its single stat query, with no `createfolderifnotexists` call; running it twice
against a provider answering the stat query the same way both times yields the
same stat both times, and the combined trace contains no creation call. -/
theorem mkdir_idempotent_no_second_create (pd : String → Int) (p : String)
    (r : ProviderResponse) (m : PcloudFileMetadata)
    (hr : r.result = PCloudResponseCodes.Ok) (hm : r.metadata = some m) :
    mkdir pd p ⟨[r, r], []⟩ = .ok (makeItem pd m, ⟨[r], [statQueryCall p]⟩)
    ∧ mkdir pd p ⟨[r], [statQueryCall p]⟩
        = .ok (makeItem pd m, ⟨[], [statQueryCall p, statQueryCall p]⟩)
    ∧ [statQueryCall p, statQueryCall p].filter
        (fun c => c.command == "createfolderifnotexists") = [] := by
  refine ⟨?_, ?_, ?_⟩
  · by_cases hp : p = "" <;>
      simp [mkdir, stat, statRaw, rootFolderMetadata, apiExec, hp, hr, hm, statQueryCall,
        PCloudResponseCodes.Ok]
  · by_cases hp : p = "" <;>
      simp [mkdir, stat, statRaw, rootFolderMetadata, apiExec, hp, hr, hm, statQueryCall,
        PCloudResponseCodes.Ok]
  · by_cases hp : p = "" <;> simp [statQueryCall, hp]

/-- C5 witness: two consecutive `mkdir "locks"` calls against a provider whose
stat query reports the existing folder both times. -/
theorem mkdir_idempotent_no_second_create_witness :
    ((0 : Nat) = PCloudResponseCodes.Ok) ∧
    mkdir (fun _ => 0) "locks"
        ⟨[{ result := 0, metadata := some (.mk "locks" "" "" true false 5 []) },
          { result := 0, metadata := some (.mk "locks" "" "" true false 5 []) }], []⟩
      = .ok (makeItem (fun _ => 0) (.mk "locks" "" "" true false 5 []),
             ⟨[{ result := 0, metadata := some (.mk "locks" "" "" true false 5 []) }],
              [statQueryCall "locks"]⟩)
    ∧ mkdir (fun _ => 0) "locks"
        ⟨[{ result := 0, metadata := some (.mk "locks" "" "" true false 5 []) }],
         [statQueryCall "locks"]⟩
      = .ok (makeItem (fun _ => 0) (.mk "locks" "" "" true false 5 []),
             ⟨[], [statQueryCall "locks", statQueryCall "locks"]⟩)
    ∧ [statQueryCall "locks", statQueryCall "locks"].filter
        (fun c => c.command == "createfolderifnotexists") = [] :=
  ⟨by decide,
    mkdir_idempotent_no_second_create (fun _ => 0) "locks"
      { result := 0, metadata := some (.mk "locks" "" "" true false 5 []) }
      (.mk "locks" "" "" true false 5 []) (by decide) rfl⟩

/-- C6 (code bug exhibit): `mkdir "a/b"` with `"a/b"` absent and parent `"a"`
existing with folder identifier 7 issues its creation call with
`name = "a"` — the *parent path* (`dirname`), not the path's final component
`"b"` (`basename`) — while correctly scoping it to the parent's folder id 7. -/
theorem mkdir_creation_named_by_parent_path :
    mkdir (fun _ => 0) "a/b"
        ⟨[{ result := 2002 },
          { result := 0, metadata := some (.mk "a" "" "" true false 7 []) },
          { result := 0, metadata := some (.mk "b" "" "" true false 9 []) }], []⟩
      = .ok (makeItem (fun _ => 0) (.mk "b" "" "" true false 9 []),
             ⟨[], [⟨"GET", "stat", { path := some "/a/b" }, none⟩,
                   ⟨"GET", "stat", { path := some "/a" }, none⟩,
                   ⟨"GET", "createfolderifnotexists",
                     { folderid := some 7, name := some "a" }, none⟩]⟩)
    ∧ dirname "a/b" = "a" ∧ basename "a/b" = "b" ∧ ("a" : String) ≠ "b" :=
  ⟨rfl, rfl, rfl, by decide⟩

/-- C8: `list` performs a single recursive (`recursive: 1`) provider listing;
`FileNotFound` yields an empty item list rather than raising, and every
returned result has `hasMore = false`. -/
theorem list_recursive_no_pagination (pd : String → Int) (p : String) (r : ProviderResponse) :
    (r.result = PCloudResponseCodes.FileNotFound →
      list pd p ⟨[r], []⟩
        = .ok ({ hasMore := false, items := [] },
               ⟨[], [⟨"GET", "listfolder", { path := some (makePath p), recursive := some 1 },
                     none⟩]⟩))
    ∧ (∀ m : PcloudFileMetadata, r.result ≠ PCloudResponseCodes.FileNotFound →
        r.metadata = some m →
        list pd p ⟨[r], []⟩
          = .ok ({ hasMore := false, items := makeItems pd m.contents },
                 ⟨[], [⟨"GET", "listfolder", { path := some (makePath p), recursive := some 1 },
                       none⟩]⟩)) := by
  constructor
  · intro hr
    simp [list, apiExec, hr]
  · intro m hr hm
    simp [list, apiExec, hr, hm]

/-- C8 witness: listing a not-yet-existing path yields `{ items: [], hasMore:
false }`; listing an existing folder with one child yields its translated
items and `hasMore = false`. -/
theorem list_recursive_no_pagination_witness :
    ((2002 : Nat) = PCloudResponseCodes.FileNotFound ∧
      list (fun _ => 0) "missing" ⟨[{ result := 2002 }], []⟩
        = .ok ({ hasMore := false, items := [] },
               ⟨[], [⟨"GET", "listfolder",
                      { path := some "/missing", recursive := some 1 }, none⟩]⟩)) ∧
    ((0 : Nat) ≠ PCloudResponseCodes.FileNotFound ∧
      list (fun _ => 0) "d"
          ⟨[{ result := 0,
              metadata := some (.mk "d" "" "" true false 4 [.mk "x.md" "" "" false false 0 []]) }],
           []⟩
        = .ok ({ hasMore := false,
                 items := makeItems (fun _ => 0) [.mk "x.md" "" "" false false 0 []] },
               ⟨[], [⟨"GET", "listfolder", { path := some "/d", recursive := some 1 },
                     none⟩]⟩)) :=
  ⟨⟨by decide,
     (list_recursive_no_pagination (fun _ => 0) "missing" { result := 2002 }).1 (by decide)⟩,
   ⟨by decide,
     (list_recursive_no_pagination (fun _ => 0) "d"
         { result := 0,
           metadata := some (.mk "d" "" "" true false 4 [.mk "x.md" "" "" false false 0 []]) }).2
       (.mk "d" "" "" true false 4 [.mk "x.md" "" "" false false 0 []]) (by decide) rfl⟩⟩

/-- C9 (code bug exhibit): for a non-deleted record `makeItem` copies the name
as path and the folder flag, but stores `created_time` as the *string*
rendering of the parsed Unix-millisecond value (no `Number(...)` around
`format('x')`), while `updated_time` is a number; deleted records get only the
deleted flag and no timestamps. -/
theorem makeItem_translation_created_time_string :
    makeItem (fun _ => 1234567890000)
        (.mk "x.md" "Thu, 01 Feb 2009 13:31:30 +0000" "Thu, 01 Feb 2009 13:31:30 +0000"
          false false 0 [])
      = { path := "x.md", isDir := false, isDeleted := none,
          created_time := some (.str "1234567890000"),
          updated_time := some (.num 1234567890000) }
    ∧ makeItem (fun _ => 1234567890000) (.mk "gone" "" "" true true 0 [])
      = { path := "gone", isDir := true, isDeleted := some true,
          created_time := none, updated_time := none }
    ∧ (∀ n : Int, JsVal.str "1234567890000" ≠ JsVal.num n) :=
  ⟨rfl, rfl, fun _ h => JsVal.noConfusion h⟩

/-- C10: when the queried path does not exist and the provider also reports
`FileNotFound` for its (non-root) parent, `mkdir`'s parent lookup returns
`null` and reading `.folderid` off it fails as a JS TypeError — not a
`PcloudFileStat` and not a classified filesystem error. -/
theorem mkdir_missing_parent_null_deref (pd : String → Int) (p : String)
    (r1 r2 : ProviderResponse) (hp : p ≠ "") (hpar : dirname p ≠ "")
    (h1 : r1.result = PCloudResponseCodes.FileNotFound)
    (h2 : r2.result = PCloudResponseCodes.FileNotFound) :
    mkdir pd p ⟨[r1, r2], []⟩ = .error .nullDeref := by
  simp [mkdir, stat, statRaw, apiExec, hp, hpar, h1, h2,
    PCloudResponseCodes.Ok, PCloudResponseCodes.FileNotFound]

/-- C10 witness: `mkdir "a/b"` when both `"a/b"` and `"a"` are reported
not-found crashes with the null dereference. -/
theorem mkdir_missing_parent_null_deref_witness :
    (("a/b" : String) ≠ "" ∧ dirname "a/b" ≠ "" ∧
      (2002 : Nat) = PCloudResponseCodes.FileNotFound) ∧
    mkdir (fun _ => 0) "a/b" ⟨[{ result := 2002 }, { result := 2002 }], []⟩
      = .error .nullDeref :=
  ⟨⟨by decide, by decide, by decide⟩,
    mkdir_missing_parent_null_deref (fun _ => 0) "a/b" { result := 2002 } { result := 2002 }
      (by decide) (by decide) (by decide) (by decide)⟩

end PCloudSpec
